import Mathlib

/-!
Verification development for the RetailMind / InsightOps analytics core.

The definitions below are a shallow embedding of the Python sources under
`backend/app/models` and `backend/app/services`:

* `database.py`       → `DB`, `log_transaction`, `fifoDeduct`, `applyFifo`
* `forecasting.py`    → `forecast_demand`
* `inventory_risk.py` → `assess_inventory_risk`
* `risk_engine.py`    → `classify_product_v2`
* `simulator.py`      → `simulate_price_impact`, `simulate_promotion`,
                        `simulate_inventory_change`, `simulate_competitor_move`,
                        `simulate_marketing_campaign`
* `simulator_service.py` → `segmentFilter` (the segment filter inside
                        `simulate_global_scenario`)

Python floats are modelled as exact rationals (with `Real.sqrt` for the one
genuine square root, in the sales-volatility computation); operations that can
raise in Python return `Option`/an error result.  Python's `round(x, n)` is
round-half-to-even (`rndHE`), and `int(x)` truncates toward zero (`pyIntQ`).
-/

/-- Python `round` to an integer: round half to even (banker's rounding). -/
def rndHE {α : Type} [LinearOrderedField α] [FloorRing α] (x : α) : ℤ :=
  if Int.fract x < 1 / 2 then ⌊x⌋
  else if 1 / 2 < Int.fract x then ⌊x⌋ + 1
  else if 2 ∣ ⌊x⌋ then ⌊x⌋ else ⌊x⌋ + 1

/-- Python `round(x, 1)`. -/
def pyRound1 {α : Type} [LinearOrderedField α] [FloorRing α] (x : α) : α :=
  ((rndHE (10 * x) : ℤ) : α) / 10

/-- Python `round(x, 2)`. -/
def pyRound2 {α : Type} [LinearOrderedField α] [FloorRing α] (x : α) : α :=
  ((rndHE (100 * x) : ℤ) : α) / 100

/-- Python `int(x)`: truncation toward zero. -/
def pyIntQ (q : ℚ) : ℤ :=
  if 0 ≤ q then ⌊q⌋ else -⌊-q⌋

/-- Result of `WhatIfSimulator.simulate_price_impact`.  The constant
`'scenario': 'price_change'` discriminator field of the returned dict is
omitted (it carries no data). -/
structure PriceImpactResult where
  price_change_pct : ℚ
  demand_change_pct : ℚ
  new_demand : ℤ
  forecast_new : ℤ
  revenue_change_pct : ℚ
  recommendation : String
deriving DecidableEq

/-- `simulator.py`, `simulate_price_impact`.  The division
`(new_price - current_price) / current_price` raises `ZeroDivisionError`
when `current_price = 0`, modelled by `none`. -/
def simulate_price_impact (current_price new_price current_demand
    forecast_demand elasticity : ℚ) : Option PriceImpactResult :=
  if current_price = 0 then none
  else
    let price_change_pct := (new_price - current_price) / current_price * 100
    let demand_change_pct := -elasticity * price_change_pct
    let new_demand := current_demand * (1 + demand_change_pct / 100)
    let forecast_new := forecast_demand * (1 + demand_change_pct / 100)
    let current_revenue := current_demand * current_price
    let new_revenue := new_demand * new_price
    let revenue_change_pct :=
      if 0 < current_revenue then (new_revenue - current_revenue) / current_revenue * 100 else 0
    some {
      price_change_pct := pyRound1 price_change_pct
      demand_change_pct := pyRound1 demand_change_pct
      new_demand := pyIntQ (max 0 new_demand)
      forecast_new := pyIntQ (max 0 forecast_new)
      revenue_change_pct := pyRound1 revenue_change_pct
      recommendation :=
        if 0 < revenue_change_pct then ("INCREASE")
        else if revenue_change_pct < -5 then ("DECREASE") else ("HOLD") }

/-- Result of `simulate_promotion` (constant discriminator omitted). -/
structure PromotionResult where
  discount_pct : ℚ
  lift_pct : ℚ
  predicted_daily_sales : ℤ
  revenue_impact : ℚ
  is_profitable : Bool
  recommendation : String
deriving DecidableEq

/-- `simulator.py`, `simulate_promotion`.  No operation can raise, so the
result is always `some`. -/
def simulate_promotion (current_price discount_pct duration_days
    current_daily_sales : ℚ) : Option PromotionResult :=
  let lift_pct := discount_pct * 2
  let predicted_daily_sales := current_daily_sales * (1 + lift_pct / 100)
  let total_sales_units := predicted_daily_sales * duration_days
  let discounted_price := current_price * (1 - discount_pct / 100)
  let total_revenue := total_sales_units * discounted_price
  let baseline_revenue := current_daily_sales * duration_days * current_price
  let revenue_change := total_revenue - baseline_revenue
  some {
    discount_pct := discount_pct
    lift_pct := discount_pct * 2
    predicted_daily_sales := pyIntQ predicted_daily_sales
    revenue_impact := pyRound2 revenue_change
    is_profitable := decide (0 < revenue_change)
    recommendation := if 0 < revenue_change then ("RUN") else ("MODIFY") }

/-- Result of `simulate_inventory_change` (constant discriminator omitted). -/
structure InventoryChangeResult where
  stock_change_pct : ℚ
  stockout_risk_reduction : ℚ
  holding_cost_change : ℚ
  lost_sales_risk_pct : ℚ
  recommendation : String
deriving DecidableEq

/-- `simulator.py`, `simulate_inventory_change`.  The division by
`current_stock_days` raises `ZeroDivisionError` when it is zero, modelled by
`none`. -/
def simulate_inventory_change (current_stock_days new_stock_days
    current_demand price : ℚ) : Option InventoryChangeResult :=
  if current_stock_days = 0 then none
  else
    let stock_change_pct := (new_stock_days - current_stock_days) / current_stock_days * 100
    let stockout_risk_reduction :=
      if 0 < stock_change_pct then min 40 (|stock_change_pct| * (8 / 10)) else 0
    let holding_cost_impact :=
      (new_stock_days - current_stock_days) * current_demand * price * (1 / 1000)
    let lost_sales_risk :=
      if new_stock_days < 7 ∧ 7 ≤ current_stock_days then (7 - new_stock_days) * 5 else 0
    some {
      stock_change_pct := pyRound1 stock_change_pct
      stockout_risk_reduction := pyRound1 stockout_risk_reduction
      holding_cost_change := pyRound2 holding_cost_impact
      lost_sales_risk_pct := pyRound1 lost_sales_risk
      recommendation :=
        if 0 < stock_change_pct ∧ 20 < stockout_risk_reduction then ("INCREASE")
        else if stock_change_pct < 0 ∧ 10 < holding_cost_impact then ("DECREASE")
        else ("HOLD") }

/-- Result of `simulate_competitor_move` (constant discriminator omitted). -/
structure CompetitorMoveResult where
  competitor_drop_pct : ℚ
  demand_impact_pct : ℚ
  revenue_impact_pct : ℚ
  recommendation : String
deriving DecidableEq

/-- `simulator.py`, `simulate_competitor_move`.  Total: no division occurs. -/
def simulate_competitor_move (current_price competitor_price_drop_pct
    current_demand elasticity : ℚ) : Option CompetitorMoveResult :=
  let demand_drop_pct := competitor_price_drop_pct * elasticity
  some {
    competitor_drop_pct := competitor_price_drop_pct
    demand_impact_pct := -(pyRound1 demand_drop_pct)
    revenue_impact_pct := -(pyRound1 demand_drop_pct)
    recommendation := if 10 < demand_drop_pct then ("MATCH_PRICE") else ("MONITOR") }

/-- Result of `simulate_marketing_campaign` (constant discriminator omitted). -/
structure MarketingResult where
  ad_spend : ℚ
  traffic_lift_pct : ℚ
  daily_revenue_increase : ℚ
  break_even_days : ℚ
  recommendation : String
deriving DecidableEq

/-- `simulator.py`, `simulate_marketing_campaign`.  The division by
`daily_revenue_lift` is guarded (`999` sentinel), so no input can raise. -/
def simulate_marketing_campaign (current_price current_daily_sales ad_spend
    expected_lift_pct : ℚ) : Option MarketingResult :=
  let new_daily_sales := current_daily_sales * (1 + expected_lift_pct / 100)
  let daily_revenue_lift := (new_daily_sales - current_daily_sales) * current_price
  let break_even_days :=
    if 0 < daily_revenue_lift then ad_spend / daily_revenue_lift else 999
  some {
    ad_spend := ad_spend
    traffic_lift_pct := expected_lift_pct
    daily_revenue_increase := pyRound2 daily_revenue_lift
    break_even_days := pyRound1 break_even_days
    recommendation := if break_even_days < 7 then ("RUN_CAMPAIGN") else ("REDUCE_COST") }

/-- A row of the `products` table (`database.py`, `init_db`). -/
structure Product where
  id : ℕ
  name : String
  category : String
  price : ℚ
  current_inventory : ℤ
deriving DecidableEq

/-- A row of the `inventory_batches` table.  `expiry_date` is a nullable DATE,
modelled as days since an epoch. -/
structure Batch where
  id : ℕ
  product_id : ℕ
  quantity : ℤ
  expiry_date : Option ℤ
  entry_date : ℤ
deriving DecidableEq

/-- A row of the `inventory_ledger` table (timestamp column omitted). -/
structure LedgerRow where
  product_id : ℕ
  transaction_type : String
  quantity : ℤ
  notes : String
deriving DecidableEq

/-- A row of the `daily_stats` table. -/
structure StatRow where
  product_id : ℕ
  date : ℤ
  sales : ℤ
  inventory_snapshot : ℤ
  price_snapshot : ℚ
deriving DecidableEq

/-- The durable SQLite state: the four tables of `init_db`. -/
structure DB where
  products : List Product
  batches : List Batch
  ledger : List LedgerRow
  daily_stats : List StatRow
deriving DecidableEq

/-- `SELECT id, current_inventory FROM products WHERE name = ?` (first row). -/
def findProduct (db : DB) (name : String) : Option Product :=
  db.products.find? (fun p => p.name == name)

/-- SQLite `ORDER BY expiry_date ASC` comparison: NULLs sort first, then
ascending dates. -/
def batchLe (a b : Batch) : Bool :=
  match a.expiry_date, b.expiry_date with
  | none, _ => true
  | some _, none => false
  | some x, some y => decide (x ≤ y)

/-- The relation underlying `batchLe`, for sortedness statements. -/
def batchRel (a b : Batch) : Prop := batchLe a b = true

instance : DecidableRel batchRel := fun a b => by
  unfold batchRel; infer_instance

instance : IsTotal Batch batchRel := by
  constructor
  intro a b
  unfold batchRel batchLe
  cases a.expiry_date with
  | none => left; rfl
  | some x =>
    cases b.expiry_date with
    | none => right; rfl
    | some y =>
      rcases le_total x y with h | h
      · left; simpa using h
      · right; simpa using h

instance : IsTrans Batch batchRel := by
  constructor
  intro a b c hab hbc
  simp only [batchRel, batchLe] at *
  cases hA : a.expiry_date <;> cases hB : b.expiry_date <;> cases hC : c.expiry_date <;>
    simp_all <;> omega

/-- The batch list as produced by
`SELECT ... WHERE product_id = ? AND quantity > 0 ORDER BY expiry_date ASC`. -/
def saleBatchQuery (bs : List Batch) (pid : ℕ) : List Batch :=
  List.insertionSort batchRel
    (bs.filter (fun b => b.product_id == pid && decide (0 < b.quantity)))

/-- The FIFO consumption loop of `log_transaction` (`database.py` lines
229-244): walk the expiry-ordered batches, deduct
`min(batch.quantity, remaining)` from each until the remainder is gone. -/
def fifoDeduct : ℤ → List Batch → List Batch
  | _, [] => []
  | rem, b :: rest =>
    if rem ≤ 0 then b :: rest
    else
      let d := min b.quantity rem
      { b with quantity := b.quantity - d } :: fifoDeduct (rem - d) rest

/-- Apply the FIFO `UPDATE inventory_batches ...` statements back to the full
batch table (updates are keyed by batch id). -/
def applyFifo (bs : List Batch) (pid : ℕ) (q : ℤ) : List Batch :=
  let newOrdered := fifoDeduct q (saleBatchQuery bs pid)
  bs.map (fun b =>
    match newOrdered.find? (fun nb => nb.id == b.id) with
    | some nb => nb
    | none => b)

/-- The underlying cause carried by a failure result of `log_transaction`. -/
inductive TxErrorCause where
  | productNotFound
  | sqlError (statement : ℕ)
deriving DecidableEq

/-- Result of `log_transaction`: `{'status': 'success', 'new_inventory': n}`
or `{'error': cause}`.  `sqlError k` records which statement of the
transaction raised (the underlying cause). -/
inductive TxResult where
  | success (new_inventory : ℤ)
  | error (cause : TxErrorCause)
deriving DecidableEq

/-- The writes executed by `log_transaction` after the product lookup, in
program order: `UPDATE products`, `INSERT INTO inventory_ledger`, the
`daily_stats` upsert, and (for a SALE) the FIFO batch updates.  Each element
mutates the connection's uncommitted state. -/
def txWrites (p : Product) (quantity : ℤ) (t_type : String) (today : ℤ) :
    List (DB → DB) :=
  let change := if t_type == "SALE" then -quantity else quantity
  let new_inv := max 0 (p.current_inventory + change)
  let salesAdd := if t_type == "SALE" then quantity else 0
  [fun s => { s with products := s.products.map (fun x =>
      if x.id == p.id then { x with current_inventory := new_inv } else x) },
   fun s => { s with ledger := s.ledger ++
      [⟨p.id, t_type, change, "Manual " ++ t_type⟩] },
   fun s => { s with daily_stats :=
     if s.daily_stats.any (fun r => r.product_id == p.id && r.date == today) then
       s.daily_stats.map (fun r =>
         if r.product_id == p.id && r.date == today then
           { r with sales := r.sales + salesAdd, inventory_snapshot := new_inv }
         else r)
     else
       s.daily_stats ++
         [⟨p.id, today, salesAdd, new_inv,
           (((s.products.find? (fun x => x.id == p.id)).map (fun x => x.price)).getD 0)⟩] }]
  ++ (if t_type == "SALE" then [fun s => { s with batches := applyFifo s.batches p.id quantity }] else [])

/-- `database.py`, `log_transaction`.  The whole body runs in one SQLite
transaction: all writes happen on the connection's uncommitted state and
become durable only at `conn.commit()`; the `except` branch calls
`conn.rollback()`, so a failure leaves the durable state untouched and
returns `{'error': cause}`.

`failAt = some k` injects an exception at the `k`-th statement after the
product lookup (indices `0 ..` are the writes of `txWrites`, index
`|txWrites|` is the commit itself); `none` means no statement raises. -/
def log_transaction (db : DB) (product_name : String) (quantity : ℤ)
    (t_type : String) (today : ℤ) (failAt : Option ℕ) : DB × TxResult :=
  match findProduct db product_name with
  | none => (db, TxResult.error TxErrorCause.productNotFound)
  | some p =>
    let change := if t_type == "SALE" then -quantity else quantity
    let new_inv := max 0 (p.current_inventory + change)
    let ws := txWrites p quantity t_type today
    match failAt with
    | some k =>
      if k ≤ ws.length then (db, TxResult.error (TxErrorCause.sqlError k))
      else (ws.foldl (fun s f => f s) db, TxResult.success new_inv)
    | none => (ws.foldl (fun s f => f s) db, TxResult.success new_inv)

/-- One row of a product's daily history as fed to the analytics
(`daily_stats` joined back to a DataFrame): the date and the sales value.
Only these two columns are read by `forecast_demand`. -/
structure DailyRec where
  date : ℤ
  sales : ℚ
deriving DecidableEq

/-- Mean of a list of values (`pandas Series.mean`, NaN-free inputs). -/
def listMean (l : List ℚ) : ℚ := l.sum / (l.length : ℚ)

/-- Sample variance with `ddof = 1`, the square of `pandas Series.std`.
Meaningful only for lists of length at least 2 (pandas yields NaN below
that, and every use below guards on the length). -/
def svar (l : List ℚ) : ℚ :=
  (l.map (fun x => (x - listMean l) ^ 2)).sum / ((l.length : ℚ) - 1)

/-- The last `n` elements of a list (`Series.tail(n)` / `DataFrame.tail`). -/
def lastN (n : ℕ) (l : List ℚ) : List ℚ := l.drop (l.length - n)

/-- Degree-1 least-squares slope of `np.polyfit(arange(m), ys, 1)[0]`. -/
def slopeOf (ys : List ℚ) : ℚ :=
  let m : ℚ := (ys.length : ℚ)
  let xs : List ℚ := (List.range ys.length).map (fun i => (i : ℚ))
  let sx := xs.sum
  let sy := ys.sum
  let sxy := ((xs.zip ys).map (fun p => p.1 * p.2)).sum
  let sxx := (xs.map (fun x => x * x)).sum
  (m * sxy - sx * sy) / (m * sxx - sx * sx)

/-- The sales column of the history after `sort_values('date')`. -/
def salesOf (product_data : List DailyRec) : List ℚ :=
  (List.insertionSort (fun a b => a.date ≤ b.date) product_data).map (fun r => r.sales)

/-- Coefficient of variation of the full sales history
(`forecasting.py` lines 27-31): `std/mean` when `std > 0 and mean > 0`,
else `0`.  pandas `std` (ddof=1) is NaN for fewer than two samples and a NaN
comparison is false, hence the length guard. -/
noncomputable def volatility (sales : List ℚ) : ℝ :=
  if 2 ≤ sales.length ∧ 0 < svar sales ∧ 0 < listMean sales then
    Real.sqrt ((svar sales : ℚ) : ℝ) / ((listMean sales : ℚ) : ℝ)
  else 0

/-- `confidence = max(0.1, 1 - min(volatility, 0.5))` (`forecasting.py` line 34). -/
noncomputable def confidenceOf (sales : List ℚ) : ℝ :=
  max (1 / 10 : ℝ) (1 - min (volatility sales) (1 / 2))

/-- Confidence tiers of the forecast. -/
inductive Tier where
  | HIGH
  | MEDIUM
  | LOW
deriving DecidableEq

/-- `'HIGH' if confidence > 0.7 else 'MEDIUM' if confidence > 0.4 else 'LOW'`. -/
noncomputable def tierOf (c : ℝ) : Tier :=
  if (7 : ℝ) / 10 < c then Tier.HIGH
  else if (4 : ℝ) / 10 < c then Tier.MEDIUM
  else Tier.LOW

/-- The dict returned by `forecast_demand`. -/
structure ForecastResult where
  forecast_days : List ℤ
  demand_trend_pct : ℚ
  confidence_score : ℝ
  confidence_tier : Tier
  last_7d_avg : ℚ

/-- `forecasting.py`, `forecast_demand`.  On an empty history the fallback
`product_data['sales'].mean()` is NaN (mean of an empty series), and the
projection loop then evaluates `int(NaN)`, which raises `ValueError`;
that crash is modelled by `none`.  On a non-empty history every step is
total.  The trailing value of the 7-day rolling mean (`min_periods=1`) is
the mean of the last `min(7, n)` sales. -/
noncomputable def forecast_demand (product_data : List DailyRec) : Option ForecastResult :=
  let sales := salesOf product_data
  let recent := lastN 14 sales
  let trend_pct : ℚ :=
    if 7 ≤ recent.length then
      if 0 < listMean recent then slopeOf recent / max (listMean recent) 1 * 100 else 0
    else 0
  if sales.isEmpty then none
  else
    let last_avg := listMean (lastN 7 sales)
    let conf := confidenceOf sales
    some {
      forecast_days := (List.range 7).map (fun i =>
        max 1 (pyIntQ (last_avg * (1 + trend_pct / 100 * ((i : ℚ) + 1) / 7))))
      demand_trend_pct := pyRound1 trend_pct
      confidence_score := pyRound2 conf
      confidence_tier := tierOf conf
      last_7d_avg := if last_avg = 0 then 0 else pyRound1 last_avg }

/-- The latest row of a product's history, as read by
`assess_inventory_risk` (`product_data.iloc[-1]`). -/
structure LatestRow where
  inventory : ℚ
  expiry_date : Option ℤ
  date : ℤ
deriving DecidableEq

/-- The two fields of the forecast dict read by `assess_inventory_risk`. -/
structure ForecastInfoIn where
  last_7d_avg : ℚ
  demand_trend_pct : ℚ
deriving DecidableEq

/-- Expiry risk levels of `inventory_risk.py` / `risk_engine.py`. -/
inductive ExpiryRisk where
  | NONE
  | MEDIUM
  | HIGH
  | CRITICAL
deriving DecidableEq

/-- Which branch produced the `reason` narrative of `assess_inventory_risk`
(the f-string templating of the numeric values is abstracted to the branch
identity). -/
inductive RiskReason where
  | balanced
  | expiryCritical (days : ℤ)
  | overstockedFalling
  | highInventory
  | lowStockRising
  | lowInventoryGrowing
deriving DecidableEq

/-- The dict returned by `assess_inventory_risk`; `risk_level` is the
verbatim string of the source. -/
structure RiskAssessment where
  risk_level : String
  days_of_stock : ℚ
  reason : RiskReason
  current_inventory : ℤ
  avg_daily_sales : ℚ
  expiry_risk : ExpiryRisk
deriving DecidableEq

/-- `inventory_risk.py`, `assess_inventory_risk`.  `current_date = None`
defaults to the latest row's date.  `days_of_stock` is
`current_inventory / last_7d_avg` when the average is positive, else the
sentinel `999`; the returned value is rounded to one decimal. -/
def assess_inventory_risk (latest : LatestRow) (forecast_info : ForecastInfoIn)
    (current_date : Option ℤ) : RiskAssessment :=
  let cur := current_date.getD latest.date
  let avg_daily_sales := forecast_info.last_7d_avg
  let days_of_stock : ℚ :=
    if 0 < avg_daily_sales then latest.inventory / avg_daily_sales else 999
  let demand_trend := forecast_info.demand_trend_pct
  let expiryInfo : ExpiryRisk × Option ℤ :=
    match latest.expiry_date with
    | none => (ExpiryRisk.NONE, none)
    | some e =>
      let d := e - cur
      if d ≤ 1 then (ExpiryRisk.CRITICAL, some d)
      else if d ≤ 3 then (ExpiryRisk.HIGH, some d)
      else if d ≤ 7 then (ExpiryRisk.MEDIUM, some d)
      else (ExpiryRisk.NONE, none)
  let levelReason : String × RiskReason :=
    if expiryInfo.1 = ExpiryRisk.CRITICAL then
      (("HIGH_RISK"), RiskReason.expiryCritical (expiryInfo.2.getD 0))
    else if 21 < days_of_stock ∧ demand_trend < -5 then
      (("HIGH_RISK"), RiskReason.overstockedFalling)
    else if 14 < days_of_stock ∧ demand_trend < 0 then
      (("MEDIUM_RISK"), RiskReason.highInventory)
    else if days_of_stock < 3 ∧ 10 < demand_trend then
      (("OPPORTUNITY"), RiskReason.lowStockRising)
    else if days_of_stock < 7 ∧ 5 < demand_trend then
      (("OPPORTUNITY"), RiskReason.lowInventoryGrowing)
    else (("STABLE"), RiskReason.balanced)
  { risk_level := levelReason.1
    days_of_stock := pyRound1 days_of_stock
    reason := levelReason.2
    current_inventory := pyIntQ latest.inventory
    avg_daily_sales := pyRound1 avg_daily_sales
    expiry_risk := expiryInfo.1 }

/-- The metrics dict handed to `classify_product_v2`
(`risk_engine.py`, `calculate_metrics`).  Dates are days since an epoch;
`expiry_date` is nullable. -/
structure MetricsIn where
  product : String
  current_avg : ℚ
  trend_7d : ℚ
  trend_30d : ℚ
  volatility : ℚ
  days_of_stock : ℚ
  stockout_risk : ℚ
  price_stability : ℚ
  expiry_date : Option ℤ
  date : ℤ
deriving DecidableEq

/-- The expiry contribution to `risk_score` in `classify_product_v2`
(`risk_engine.py` lines 79-104): `+100` when `days_to_expiry <= 1`, `+50`
when `<= 3`, `+20` when `<= 7`, else `0`. -/
def expiryBump (m : MetricsIn) : ℤ :=
  match m.expiry_date with
  | none => 0
  | some e =>
    let d := e - m.date
    if d ≤ 1 then 100 else if d ≤ 3 then 50 else if d ≤ 7 then 20 else 0

/-- The expiry risk level set alongside `expiryBump`. -/
def expiryLevel (m : MetricsIn) : ExpiryRisk :=
  match m.expiry_date with
  | none => ExpiryRisk.NONE
  | some e =>
    let d := e - m.date
    if d ≤ 1 then ExpiryRisk.CRITICAL
    else if d ≤ 3 then ExpiryRisk.HIGH
    else if d ≤ 7 then ExpiryRisk.MEDIUM
    else ExpiryRisk.NONE

/-- The four additive risk factors (`risk_engine.py` lines 107-114). -/
def riskFactors (m : MetricsIn) : ℤ :=
  (if m.trend_7d < -10 then 30 else 0) +
  (if 25 < m.days_of_stock then 25 else 0) +
  (if (3 : ℚ) / 10 < m.stockout_risk then 20 else 0) +
  (if (4 : ℚ) / 10 < m.volatility then 15 else 0)

/-- `risk_score` as accumulated by `classify_product_v2`. -/
def riskScore (m : MetricsIn) : ℤ := expiryBump m + riskFactors m

/-- `opportunity_score` as accumulated by `classify_product_v2`
(`risk_engine.py` lines 117-124). -/
def oppScore (m : MetricsIn) (forecast_growth : ℚ) : ℤ :=
  (if 15 < m.trend_7d then 30 else 0) +
  (if m.days_of_stock < 7 then 25 else 0) +
  (if 10 < forecast_growth then 20 else 0) +
  (if m.volatility < (2 : ℚ) / 10 ∧ 5 < m.trend_7d then 15 else 0)

/-- The category decision chain (`risk_engine.py` lines 127-151), returning
`(category, color, priority)`. -/
def categoryOf (risk_score opportunity_score : ℤ) : String × String × ℤ :=
  if 60 ≤ risk_score ∧ opportunity_score < 30 then (("HIGH_RISK"), ("red"), 1)
  else if 60 ≤ opportunity_score ∧ risk_score < 30 then (("OPPORTUNITY"), ("green"), 1)
  else if opportunity_score < risk_score then (("MEDIUM_RISK"), ("orange"), 2)
  else if risk_score < opportunity_score then (("STABLE"), ("lightgreen"), 2)
  else (("STABLE"), ("gray"), 3)

/-- `_get_recommended_action`: first entry of the per-category action list. -/
def getRecommendedAction (category : String) : String :=
  if category = "HIGH_RISK" then ("Discount by 15-20% to clear excess stock")
  else if category = "OPPORTUNITY" then ("Increase inventory to meet demand")
  else if category = "MEDIUM_RISK" then ("Monitor closely for 7 days")
  else if category = "STABLE" then ("Maintain current levels")
  else ("Monitor as usual")

/-- The expiry message string built in `classify_product_v2` (empty when no
expiry date is present). -/
def expiryMessage (m : MetricsIn) : String :=
  match m.expiry_date with
  | none => ("")
  | some e =>
    let d := e - m.date
    if d ≤ 1 then ("CRITICAL: Product expires in ") ++ toString d ++ (" days! Clearance required.")
    else if d ≤ 3 then ("WARNING: Product expires in ") ++ toString d ++ (" days. Promotion required.")
    else if d ≤ 7 then ("NOTICE: Product expiring soon (") ++ toString d ++ (" days).")
    else ("Days to expiry: ") ++ toString d ++ (".")

/-- The dict returned by `classify_product_v2` (trend arrow/text and the
stockout status strings included; emoji icon omitted). -/
structure ClassifyResult where
  risk_level : String
  color : String
  priority : ℤ
  risk_score : ℤ
  opportunity_score : ℤ
  trend_text : String
  days_of_stock : ℚ
  stockout_status : String
  reason : String
  recommended_action : String
  avg_daily_sales : ℚ
  expiry_risk : ExpiryRisk
deriving DecidableEq

/-- `risk_engine.py`, `RiskOpportunityEngine.classify_product_v2`. -/
def classify_product_v2 (m : MetricsIn) (forecast_growth : ℚ) : ClassifyResult :=
  let risk_score := riskScore m
  let opportunity_score := oppScore m forecast_growth
  let cat := categoryOf risk_score opportunity_score
  let trend_text :=
    if 5 < m.trend_7d then ("+") ++ toString (pyRound1 m.trend_7d)
    else toString (pyRound1 m.trend_7d)
  let stockout_status :=
    if m.days_of_stock ≤ 3 then ("IMMINENT")
    else if m.days_of_stock ≤ 7 then ("SOON")
    else ("SAFE")
  let action := getRecommendedAction cat.1
  let msg := expiryMessage m
  { risk_level := cat.1
    color := cat.2.1
    priority := cat.2.2
    risk_score := risk_score
    opportunity_score := opportunity_score
    trend_text := trend_text
    days_of_stock := pyRound1 m.days_of_stock
    stockout_status := stockout_status
    reason := if msg = "" then action else msg ++ (" ") ++ action
    recommended_action := action
    avg_daily_sales := pyRound1 m.current_avg
    expiry_risk := expiryLevel m }

/-- The segment filter inside `simulate_global_scenario`
(`simulator_service.py` lines 154-160): positional slicing of the product
list — `high_risk` takes `products[:n//3]`, `opportunity` takes
`products[n//3:2*n//3]`, anything else (including `all`) keeps the whole
list.  No risk classification is consulted. -/
def segmentFilter (products : List String) (segment : String) : List String :=
  if segment = "high_risk" then products.take (products.length / 3)
  else if segment = "opportunity" then
    (products.drop (products.length / 3)).take (2 * products.length / 3 - products.length / 3)
  else products

/-- `target_products = products[:50]` — the size cap applied after the
segment filter. -/
def targetProducts (products : List String) (segment : String) : List String :=
  (segmentFilter products segment).take 50

/-- Modelled from the spec: "Segment filters select by risk classification
(ALL / HIGH_RISK / OPPORTUNITY)" — the filter the specification describes,
selecting exactly the products whose risk classification matches the
segment.  Used only to compare the claimed behaviour with `segmentFilter`. -/
def segmentFilterClaimed (products : List String) (classification : String → String)
    (segment : String) : List String :=
  if segment = "high_risk" then products.filter (fun p => classification p == "HIGH_RISK")
  else if segment = "opportunity" then products.filter (fun p => classification p == "OPPORTUNITY")
  else products

theorem floor_le_rndHE {α : Type} [LinearOrderedField α] [FloorRing α] (x : α) :
    ⌊x⌋ ≤ rndHE x := by
  unfold rndHE
  split_ifs <;> omega

theorem rndHE_intCast {α : Type} [LinearOrderedField α] [FloorRing α] (n : ℤ) :
    rndHE ((n : ℤ) : α) = n := by
  unfold rndHE
  rw [Int.fract_intCast, Int.floor_intCast]
  rw [if_pos (by norm_num : (0 : α) < 1 / 2)]

theorem rndHE_neg {α : Type} [LinearOrderedField α] [FloorRing α] (x : α) :
    rndHE (-x) = -rndHE x := by
  by_cases h0 : Int.fract x = 0
  · have hx : ((⌊x⌋ : ℤ) : α) = x := by
      have h1 := Int.floor_add_fract x
      rw [h0, add_zero] at h1
      exact h1
    rw [← hx, ← Int.cast_neg, rndHE_intCast, rndHE_intCast]
  · have hlt : 0 < Int.fract x := lt_of_le_of_ne (Int.fract_nonneg x) (Ne.symm h0)
    have hlt1 : Int.fract x < 1 := Int.fract_lt_one x
    have hfr : Int.fract (-x) = 1 - Int.fract x := Int.fract_neg h0
    have hfl : ⌊-x⌋ = -⌊x⌋ - 1 := by
      have h1 := Int.floor_add_fract x
      have h2 := Int.floor_add_fract (-x)
      rw [hfr] at h2
      have h3 : (⌊-x⌋ : α) = ((-⌊x⌋ - 1 : ℤ) : α) := by push_cast; linarith
      exact_mod_cast h3
    unfold rndHE
    rw [hfr, hfl]
    split_ifs <;> first | omega | linarith

theorem pyRound1_neg {α : Type} [LinearOrderedField α] [FloorRing α] (x : α) :
    pyRound1 (-x) = -pyRound1 x := by
  unfold pyRound1
  rw [show 10 * -x = -(10 * x) by ring, rndHE_neg]
  push_cast
  ring

/-- Claim C7 (corrected): the two simulators whose scenario math divides by a
baseline do crash at a zero baseline — `simulate_price_impact` with
`current_price = 0` and `simulate_inventory_change` with
`current_stock_days = 0` both raise `ZeroDivisionError` (modelled `none`),
refuting "they do not crash for ... zero baselines". -/
theorem simulate_zero_baseline_raises :
    simulate_price_impact 0 10 5 5 1 = none ∧
    simulate_inventory_change 0 10 5 2 = none :=
  ⟨rfl, rfl⟩

/-- Claim C7 (amended): every simulation function returns a well-formed
structured result on every (finite) rational input, except that
`simulate_price_impact` requires `current_price ≠ 0` and
`simulate_inventory_change` requires `current_stock_days ≠ 0`;
promotion, competitor-move and marketing simulations are total. -/
theorem simulators_never_raise_on_nonzero_baselines
    (cp np cd fdem el csd nsd pr dp dur cds spend lp cpd : ℚ) :
    (cp ≠ 0 → (simulate_price_impact cp np cd fdem el).isSome = true) ∧
    (csd ≠ 0 → (simulate_inventory_change csd nsd cd pr).isSome = true) ∧
    (simulate_promotion cp dp dur cds).isSome = true ∧
    (simulate_competitor_move cp cpd cd el).isSome = true ∧
    (simulate_marketing_campaign cp cds spend lp).isSome = true := by
  refine ⟨?_, ?_, rfl, rfl, rfl⟩
  · intro h
    simp [simulate_price_impact, h]
  · intro h
    simp [simulate_inventory_change, h]

/-- Witness for `simulators_never_raise_on_nonzero_baselines` at concrete
nonzero baselines. -/
theorem simulators_never_raise_witness :
    (simulate_price_impact 10 1 5 5 1).isSome = true ∧
    (simulate_inventory_change 3 1 5 2).isSome = true := by
  have h := simulators_never_raise_on_nonzero_baselines 10 1 5 5 1 3 1 2 0 0 0 0 0 0
  exact ⟨h.1 (by norm_num), h.2.1 (by norm_num)⟩

/-- Claim C9 (confirmed): with elasticity `1.0` and a nonzero current price,
the price-change simulation returns `demand_change_pct` equal to exactly the
negation of the returned `price_change_pct` (round-half-to-even commutes with
negation). -/
theorem price_impact_elasticity_one (current_price new_price current_demand
    fdem : ℚ) (h : current_price ≠ 0) (r : PriceImpactResult)
    (hr : simulate_price_impact current_price new_price current_demand fdem 1 = some r) :
    r.demand_change_pct = -r.price_change_pct := by
  simp only [simulate_price_impact, if_neg h, Option.some.injEq] at hr
  rw [← hr]
  show pyRound1 (-1 * ((new_price - current_price) / current_price * 100)) =
    -pyRound1 ((new_price - current_price) / current_price * 100)
  rw [show (-1 : ℚ) * ((new_price - current_price) / current_price * 100) =
    -((new_price - current_price) / current_price * 100) by ring, pyRound1_neg]

/-- Witness for `price_impact_elasticity_one`: a 10% price increase at
elasticity 1 yields `demand_change_pct = -10 = -price_change_pct`. -/
theorem price_impact_elasticity_one_witness :
    simulate_price_impact 100 110 5 5 1 =
      some ⟨10, -10, 4, 4, -1, ("HOLD")⟩ ∧
    (⟨10, -10, 4, 4, -1, ("HOLD")⟩ : PriceImpactResult).demand_change_pct =
      -(⟨10, -10, 4, 4, -1, ("HOLD")⟩ : PriceImpactResult).price_change_pct := by
  have heq : simulate_price_impact 100 110 5 5 1 =
      some ⟨10, -10, 4, 4, -1, ("HOLD")⟩ := by
    norm_num [simulate_price_impact, pyRound1, pyIntQ, rndHE, Int.fract, max_def]
  exact ⟨heq, price_impact_elasticity_one 100 110 5 5 (by norm_num) _ heq⟩

/-- Claim C5 (corrected): at inventory 5 and `last_7d_avg = 7` the returned
`days_of_stock` is `round(5/7, 1) = 0.7`, not the exact quotient `5/7` the
claim states. -/
theorem assess_days_of_stock_not_exact :
    (assess_inventory_risk ⟨5, none, 0⟩ ⟨7, 0⟩ none).days_of_stock ≠ (5 : ℚ) / 7 := by
  norm_num [assess_inventory_risk, pyRound1, rndHE, Int.fract]

/-- Claim C5 (amended): `assess_inventory_risk` returns `days_of_stock` equal
to `current_inventory / last_7d_avg` rounded to one decimal whenever
`last_7d_avg > 0`, and exactly the sentinel `999` when `last_7d_avg = 0`;
the zero-mean case never raises (the function is total). -/
theorem assess_days_of_stock (latest : LatestRow) (f : ForecastInfoIn)
    (current_date : Option ℤ) :
    (0 < f.last_7d_avg →
      (assess_inventory_risk latest f current_date).days_of_stock =
        pyRound1 (latest.inventory / f.last_7d_avg)) ∧
    (f.last_7d_avg = 0 →
      (assess_inventory_risk latest f current_date).days_of_stock = 999) := by
  constructor
  · intro h
    simp only [assess_inventory_risk]
    rw [if_pos h]
  · intro h
    simp only [assess_inventory_risk]
    rw [if_neg (by rw [h]; exact lt_irrefl 0)]
    norm_num [pyRound1, rndHE, Int.fract]

/-- Witness for `assess_days_of_stock` at inventory 5 with average 7
(positive-average branch) and average 0 (sentinel branch). -/
theorem assess_days_of_stock_witness :
    (assess_inventory_risk ⟨5, none, 0⟩ ⟨7, 0⟩ none).days_of_stock =
      pyRound1 ((5 : ℚ) / 7) ∧
    (assess_inventory_risk ⟨5, none, 0⟩ ⟨0, 0⟩ none).days_of_stock = 999 := by
  constructor
  · have h := (assess_days_of_stock ⟨5, none, 0⟩ ⟨7, 0⟩ none).1 (by norm_num)
    simpa using h
  · exact (assess_days_of_stock ⟨5, none, 0⟩ ⟨0, 0⟩ none).2 rfl

theorem riskFactors_nonneg (m : MetricsIn) : 0 ≤ riskFactors m := by
  unfold riskFactors
  split_ifs <;> norm_num

theorem oppScore_le_ninety (m : MetricsIn) (fg : ℚ) : oppScore m fg ≤ 90 := by
  unfold oppScore
  split_ifs <;> norm_num

theorem expiryBump_critical (m : MetricsIn) (e : ℤ) (h1 : m.expiry_date = some e)
    (h2 : e - m.date ≤ 1) : expiryBump m = 100 := by
  unfold expiryBump
  rw [h1]
  simp only [if_pos h2]

/-- A metrics row that is expiry-critical (expires in 1 day) but carries a
strong 7-day trend, so `opportunity_score = 30`. -/
def mCritOpp : MetricsIn :=
  ⟨("P"), 5, 20, 0, 3 / 10, 10, 0, 1, some 1, 0⟩

/-- Claim C6 (corrected): an expiry-critical product (`days_to_expiry = 1`,
so `risk_score` gets `+100`) with `trend_7d = 20` has
`opportunity_score = 30`, and `classify_product_v2` then classifies it
MEDIUM_RISK, not HIGH_RISK — the `+100` does not force HIGH_RISK regardless
of the other signals. -/
theorem expiry_critical_not_forcing :
    (classify_product_v2 mCritOpp 0).risk_score = 100 ∧
    (classify_product_v2 mCritOpp 0).risk_level ≠ ("HIGH_RISK") := by
  constructor
  · norm_num [classify_product_v2, mCritOpp, riskScore, expiryBump, riskFactors]
  · intro h
    rw [show (classify_product_v2 mCritOpp 0).risk_level = ("MEDIUM_RISK") from by
      norm_num [classify_product_v2, mCritOpp, riskScore, expiryBump, riskFactors,
        oppScore, categoryOf]] at h
    exact absurd h (by decide)

/-- Claim C6 (amended): whenever the metrics carry an expiry date at most
1 day after the current date, `classify_product_v2` adds 100 to
`risk_score` (so `risk_score ≥ 60`); the classification is `HIGH_RISK`
exactly when `opportunity_score < 30`, and `MEDIUM_RISK` otherwise (the
risk score, at least 100, then still exceeds the opportunity score, which
is at most 90). -/
theorem expiry_critical_classification (m : MetricsIn) (fg : ℚ) (e : ℤ)
    (h1 : m.expiry_date = some e) (h2 : e - m.date ≤ 1) :
    60 ≤ (classify_product_v2 m fg).risk_score ∧
    ((classify_product_v2 m fg).opportunity_score < 30 →
      (classify_product_v2 m fg).risk_level = ("HIGH_RISK")) ∧
    (30 ≤ (classify_product_v2 m fg).opportunity_score →
      (classify_product_v2 m fg).risk_level = ("MEDIUM_RISK")) := by
  have hb := expiryBump_critical m e h1 h2
  have hf := riskFactors_nonneg m
  have hrs : 100 ≤ riskScore m := by
    unfold riskScore
    omega
  have hos : oppScore m fg ≤ 90 := oppScore_le_ninety m fg
  simp only [classify_product_v2]
  refine ⟨by omega, ?_, ?_⟩
  · intro hopp
    unfold categoryOf
    rw [if_pos ⟨by omega, hopp⟩]
  · intro hopp
    unfold categoryOf
    rw [if_neg (by omega), if_neg (by omega), if_pos (by omega)]

/-- Witness for `expiry_critical_classification`: the expiry-critical metrics
`mCritOpp` (opportunity 30 → MEDIUM_RISK) and the same metrics with a flat
trend (opportunity 0 → HIGH_RISK). -/
theorem expiry_critical_classification_witness :
    60 ≤ (classify_product_v2 mCritOpp 0).risk_score ∧
    (classify_product_v2 mCritOpp 0).risk_level = ("MEDIUM_RISK") ∧
    (classify_product_v2 (⟨("P"), 5, 0, 0, 3 / 10, 10, 0, 1, some 1, 0⟩ : MetricsIn) 0).risk_level
      = ("HIGH_RISK") := by
  have h1 := expiry_critical_classification mCritOpp 0 1 rfl (by norm_num [mCritOpp])
  have h2 := expiry_critical_classification
    (⟨("P"), 5, 0, 0, 3 / 10, 10, 0, 1, some 1, 0⟩ : MetricsIn) 0 1 rfl (by norm_num)
  refine ⟨h1.1, h1.2.2 ?_, h2.2.1 ?_⟩
  · norm_num [classify_product_v2, mCritOpp, oppScore]
  · norm_num [classify_product_v2, oppScore]

/-- Claim C8 (corrected): on the catalog `["A", "B", "C"]` with only `"C"`
classified HIGH_RISK, the source's segment filter returns the positional
first third `["A"]`, while the classification-based filter the claim
describes returns `["C"]` — the segment filter does not select by risk
classification. -/
theorem segment_filter_ignores_classification :
    segmentFilter [("A"), ("B"), ("C")] ("high_risk") = [("A")] ∧
    segmentFilterClaimed [("A"), ("B"), ("C")]
      (fun p => if p = "C" then ("HIGH_RISK") else ("STABLE")) ("high_risk") = [("C")] ∧
    ([("A")] : List String) ≠ [("C")] := by
  refine ⟨by decide, by decide, by decide⟩

/-- Claim C8 (amended): the segment filter of `simulate_global_scenario` is
purely positional and ignores risk classification: segment `all` (and any
unrecognized segment) keeps every product; `high_risk` keeps exactly the
first `⌊n/3⌋` products of the catalog list; `opportunity` keeps exactly the
slice from position `⌊n/3⌋` up to `⌊2n/3⌋`.  The 50-product cap is applied
afterwards (`targetProducts`). -/
theorem segment_filter_positional (ps : List String) :
    segmentFilter ps ("all") = ps ∧
    (segmentFilter ps ("high_risk")).length = ps.length / 3 ∧
    (∀ i, i < ps.length / 3 →
      (segmentFilter ps ("high_risk")).get? i = ps.get? i) ∧
    (segmentFilter ps ("opportunity")).length = 2 * ps.length / 3 - ps.length / 3 ∧
    (∀ i, i < 2 * ps.length / 3 - ps.length / 3 →
      (segmentFilter ps ("opportunity")).get? i = ps.get? (ps.length / 3 + i)) := by
  have hh : segmentFilter ps ("high_risk") = ps.take (ps.length / 3) := by
    simp [segmentFilter]
  have ho : segmentFilter ps ("opportunity") =
      (ps.drop (ps.length / 3)).take (2 * ps.length / 3 - ps.length / 3) := by
    simp [segmentFilter]
  refine ⟨rfl, ?_, ?_, ?_, ?_⟩
  · rw [hh, List.length_take]
    omega
  · intro i hi
    rw [hh]
    exact List.get?_take hi
  · rw [ho, List.length_take, List.length_drop]
    omega
  · intro i hi
    rw [ho, List.get?_take hi, List.get?_drop]

/-- Witness for `segment_filter_positional` on the three-product catalog
`["A", "B", "C"]`. -/
theorem segment_filter_positional_witness :
    segmentFilter [("A"), ("B"), ("C")] ("all") = [("A"), ("B"), ("C")] ∧
    (segmentFilter [("A"), ("B"), ("C")] ("high_risk")).get? 0 = some ("A") ∧
    (segmentFilter [("A"), ("B"), ("C")] ("opportunity")).get? 0 = some ("B") := by
  have h := segment_filter_positional [("A"), ("B"), ("C")]
  refine ⟨h.1, ?_, ?_⟩
  · have h2 := h.2.2.1 0 (by norm_num)
    simpa using h2
  · have h3 := h.2.2.2.2 0 (by norm_num)
    simpa using h3

/-- Claim C1 (confirmed): a SALE of quantity `q > 0` against a product with
cached inventory `i` succeeds with `new_inventory = max 0 (i - q)` (never
negative), every product row with that id ends with the clamped cached
inventory, and the appended ledger entry records the full signed delta `-q`
even when the clamp fired. -/
theorem log_transaction_sale_clamps (db : DB) (product_name : String)
    (q : ℤ) (today : ℤ) (p : Product)
    (hp : findProduct db product_name = some p) (hq : 0 < q) :
    (log_transaction db product_name q ("SALE") today none).2 =
      TxResult.success (max 0 (p.current_inventory - q)) ∧
    0 ≤ max 0 (p.current_inventory - q) ∧
    (∀ x ∈ (log_transaction db product_name q ("SALE") today none).1.products,
      x.id = p.id → x.current_inventory = max 0 (p.current_inventory - q)) ∧
    (log_transaction db product_name q ("SALE") today none).1.ledger =
      db.ledger ++ [⟨p.id, ("SALE"), -q, ("Manual SALE")⟩] := by
  have hout : log_transaction db product_name q ("SALE") today none =
      ((txWrites p q ("SALE") today).foldl (fun s f => f s) db,
        TxResult.success (max 0 (p.current_inventory + -q))) := by
    simp [log_transaction, hp]
  refine ⟨?_, le_max_left 0 _, ?_, ?_⟩
  · rw [hout, sub_eq_add_neg]
  · rw [hout]
    intro x hx hid
    have hx2 : x ∈ db.products.map (fun x =>
        if x.id == p.id then
          { x with current_inventory := max 0 (p.current_inventory + -q) }
        else x) := by
      simpa [txWrites] using hx
    obtain ⟨x0, hx0, rfl⟩ := List.mem_map.mp hx2
    by_cases hb : (x0.id == p.id) = true
    · rw [if_pos hb, sub_eq_add_neg]
    · rw [if_neg hb] at hid ⊢
      exact absurd (beq_iff_eq.mpr hid) hb
  · rw [hout]
    show (db.ledger ++ [⟨p.id, ("SALE"), -q, ("Manual ") ++ ("SALE")⟩] : List LedgerRow) = _
    rfl

/-- Witness for `log_transaction_sale_clamps`: the spec's end-to-end example,
inventory 5 and SALE quantity 7 — clamped new inventory 0, ledger delta −7. -/
theorem log_transaction_sale_clamps_witness :
    (log_transaction ⟨[⟨1, ("Milk"), ("Dairy"), 10, 5⟩], [], [], []⟩
        ("Milk") 7 ("SALE") 0 none).2 = TxResult.success 0 ∧
    (log_transaction ⟨[⟨1, ("Milk"), ("Dairy"), 10, 5⟩], [], [], []⟩
        ("Milk") 7 ("SALE") 0 none).1.ledger =
      [⟨1, ("SALE"), -7, ("Manual SALE")⟩] := by
  have h := log_transaction_sale_clamps
    ⟨[⟨1, ("Milk"), ("Dairy"), 10, 5⟩], [], [], []⟩ ("Milk") 7 0
    ⟨1, ("Milk"), ("Dairy"), 10, 5⟩ rfl (by norm_num)
  constructor
  · rw [h.1]
    norm_num
  · rw [h.2.2.2]
    rfl

/-- Claim C2 (confirmed): whenever `log_transaction` returns a failure result
(product not found, or any statement of the transaction raising before the
commit), the durable database state is unchanged — no partial write of the
product row, ledger, daily snapshot or batch deductions remains — and the
result carries the underlying cause. -/
theorem log_transaction_rollback (db : DB) (product_name : String) (q : ℤ)
    (t_type : String) (today : ℤ) (failAt : Option ℕ) (e : TxErrorCause)
    (he : (log_transaction db product_name q t_type today failAt).2 =
      TxResult.error e) :
    (log_transaction db product_name q t_type today failAt).1 = db := by
  cases hp : findProduct db product_name with
  | none =>
    unfold log_transaction
    rw [hp]
  | some p =>
    unfold log_transaction at he ⊢
    rw [hp] at he ⊢
    cases failAt with
    | none => simp at he
    | some k =>
      by_cases hk : k ≤ (txWrites p q t_type today).length
      · simp [hk]
      · simp [hk] at he

/-- Witness for `log_transaction_rollback`: a SALE against an absent product
and an injected failure at statement 0 both leave the one-product database
exactly as it was. -/
theorem log_transaction_rollback_witness :
    (log_transaction ⟨[⟨1, ("Milk"), ("Dairy"), 10, 5⟩], [], [], []⟩
        ("Ghost") 3 ("SALE") 0 none).1 =
      ⟨[⟨1, ("Milk"), ("Dairy"), 10, 5⟩], [], [], []⟩ ∧
    (log_transaction ⟨[⟨1, ("Milk"), ("Dairy"), 10, 5⟩], [], [], []⟩
        ("Milk") 3 ("SALE") 0 (some 0)).1 =
      ⟨[⟨1, ("Milk"), ("Dairy"), 10, 5⟩], [], [], []⟩ := by
  constructor
  · exact log_transaction_rollback _ _ 3 _ 0 none TxErrorCause.productNotFound rfl
  · exact log_transaction_rollback _ _ 3 _ 0 (some 0) (TxErrorCause.sqlError 0) rfl

theorem fifoDeduct_of_nonpos (rem : ℤ) (bs : List Batch) (h : rem ≤ 0) :
    fifoDeduct rem bs = bs := by
  cases bs with
  | nil => rfl
  | cons b t => rw [fifoDeduct, if_pos h]

theorem fifoDeduct_nonneg (rem : ℤ) (bs : List Batch)
    (h : ∀ b ∈ bs, 0 ≤ b.quantity) :
    ∀ b ∈ fifoDeduct rem bs, 0 ≤ b.quantity := by
  induction bs generalizing rem with
  | nil =>
    intro b hb
    simp [fifoDeduct] at hb
  | cons b t ih =>
    intro x hx
    rw [fifoDeduct] at hx
    by_cases hr : rem ≤ 0
    · rw [if_pos hr] at hx
      exact h x hx
    · rw [if_neg hr] at hx
      rcases List.mem_cons.mp hx with hx1 | hx2
      · have hb := h b (List.mem_cons_self b t)
        have hmin : min b.quantity rem ≤ b.quantity := min_le_left _ _
        subst hx1
        simp only
        omega
      · exact ih (rem - min b.quantity rem)
          (fun y hy => h y (List.mem_cons_of_mem b hy)) x hx2

theorem fifoDeduct_earlier_exhausted (bs : List Batch) :
    ∀ (rem : ℤ) (i j : ℕ) (bj bj' bi' : Batch), i < j →
      bs.get? j = some bj → (fifoDeduct rem bs).get? j = some bj' →
      bj'.quantity ≠ bj.quantity →
      (fifoDeduct rem bs).get? i = some bi' → bi'.quantity = 0 := by
  induction bs with
  | nil =>
    intro rem i j bj bj' bi' hij hj hj' hne hi
    simp at hj
  | cons b t ih =>
    intro rem i j bj bj' bi' hij hj hj' hne hi
    by_cases hr : rem ≤ 0
    · rw [fifoDeduct_of_nonpos rem (b :: t) hr] at hj' hi
      rw [hj] at hj'
      exact absurd (Option.some.inj hj') (fun h2 => hne (by rw [h2]))
    · rw [fifoDeduct] at hj' hi
      rw [if_neg hr] at hj' hi
      cases j with
      | zero => omega
      | succ j2 =>
        have hjt : t.get? j2 = some bj := hj
        have hjt' : (fifoDeduct (rem - min b.quantity rem) t).get? j2 = some bj' := hj'
        cases i with
        | zero =>
          have hb : bi' = { b with quantity := b.quantity - min b.quantity rem } :=
            Option.some.inj hi.symm
          by_cases h2 : rem - min b.quantity rem ≤ 0
          · rw [fifoDeduct_of_nonpos _ t h2] at hjt'
            rw [hjt] at hjt'
            exact absurd (Option.some.inj hjt') (fun h3 => hne (by rw [h3]))
          · have hm1 : min b.quantity rem ≤ b.quantity := min_le_left _ _
            have hm2 : min b.quantity rem ≤ rem := min_le_right _ _
            have hm3 : min b.quantity rem = b.quantity ∨ min b.quantity rem = rem :=
              min_choice _ _
            rw [hb]
            simp only
            omega
        | succ i2 =>
          exact ih (rem - min b.quantity rem) i2 j2 bj bj' bi'
            (by omega) hjt hjt' hne hi

/-- Claim C3 (confirmed): for a SALE, the batch rows selected by
`WHERE quantity > 0 ORDER BY expiry_date ASC` are consumed in ascending
expiry order: the selected list is sorted by expiry (`batchRel`), no batch
quantity is ever driven below 0, and whenever a later-positioned (hence
later-expiring) batch was decremented, every earlier batch in the order has
been exhausted to exactly 0. -/
theorem fifo_batch_consumption (q : ℤ) (bs : List Batch) (pid : ℕ) :
    List.Pairwise batchRel (saleBatchQuery bs pid) ∧
    (∀ b ∈ fifoDeduct q (saleBatchQuery bs pid), 0 ≤ b.quantity) ∧
    (∀ i j bj bj' bi', i < j →
      (saleBatchQuery bs pid).get? j = some bj →
      (fifoDeduct q (saleBatchQuery bs pid)).get? j = some bj' →
      bj'.quantity ≠ bj.quantity →
      (fifoDeduct q (saleBatchQuery bs pid)).get? i = some bi' →
      bi'.quantity = 0) := by
  refine ⟨List.sorted_insertionSort batchRel _, ?_, ?_⟩
  · apply fifoDeduct_nonneg
    intro b hb
    have hmem : b ∈ bs.filter
        (fun b => b.product_id == pid && decide (0 < b.quantity)) :=
      (List.perm_insertionSort batchRel _).mem_iff.mp hb
    have := (List.mem_filter.mp hmem).2
    have h2 : decide (0 < b.quantity) = true := (Bool.and_eq_true _ _ |>.mp this).2
    exact le_of_lt (of_decide_eq_true h2)
  · intro i j bj bj' bi' hij hj hj' hne hi
    exact fifoDeduct_earlier_exhausted (saleBatchQuery bs pid) q i j bj bj' bi'
      hij hj hj' hne hi

/-- Witness for `fifo_batch_consumption`: two batches of product 1 in
reverse expiry order (expiry 5 with 3 units, expiry 2 with 4 units); a SALE
of 5 first exhausts the expiry-2 batch to 0, then takes 1 unit from the
expiry-5 batch, leaving 2 ≥ 0. -/
theorem fifo_batch_consumption_witness :
    (⟨2, 1, 0, some 2, 0⟩ : Batch).quantity = 0 ∧
    0 ≤ (⟨1, 1, 2, some 5, 0⟩ : Batch).quantity := by
  have h := fifo_batch_consumption 5 [⟨1, 1, 3, some 5, 0⟩, ⟨2, 1, 4, some 2, 0⟩] 1
  constructor
  · exact h.2.2 0 1 ⟨1, 1, 3, some 5, 0⟩ ⟨1, 1, 2, some 5, 0⟩ ⟨2, 1, 0, some 2, 0⟩
      (by norm_num) (by decide) (by decide) (by decide) (by decide)
  · exact h.2.1 ⟨1, 1, 2, some 5, 0⟩ (by decide)

/-- Claim C4 (code_bug): `forecast_demand` applied to an empty history
crashes instead of returning a ForecastResult — the fallback
`product_data['sales'].mean()` is the mean of an empty series (NaN) and the
projection loop then raises `ValueError` at `int(NaN)`; the embedding
returns `none` for that crash. -/
theorem forecast_demand_empty_crashes : forecast_demand [] = none := by
  rfl

theorem confidenceOf_ge_half (sales : List ℚ) : (1 / 2 : ℝ) ≤ confidenceOf sales := by
  unfold confidenceOf
  have h1 : min (volatility sales) (1 / 2 : ℝ) ≤ 1 / 2 := min_le_right _ _
  have h2 : (1 / 2 : ℝ) ≤ 1 - min (volatility sales) (1 / 2) := by linarith
  exact le_trans h2 (le_max_right _ _)

theorem pyRound2_ge_half {x : ℝ} (hx : (1 / 2 : ℝ) ≤ x) :
    (1 / 2 : ℝ) ≤ pyRound2 x := by
  unfold pyRound2
  have h1 : (50 : ℤ) ≤ ⌊(100 : ℝ) * x⌋ := by
    apply Int.le_floor.mpr
    push_cast
    linarith
  have h2 : (50 : ℤ) ≤ rndHE ((100 : ℝ) * x) :=
    le_trans h1 (floor_le_rndHE ((100 : ℝ) * x))
  have h3 : ((50 : ℤ) : ℝ) ≤ ((rndHE ((100 : ℝ) * x) : ℤ) : ℝ) := by exact_mod_cast h2
  push_cast at h3
  linarith

theorem tierOf_ne_low {c : ℝ} (hc : (1 / 2 : ℝ) ≤ c) : tierOf c ≠ Tier.LOW := by
  unfold tierOf
  split_ifs with h1 h2
  · simp
  · simp
  · exfalso
    linarith

/-- Claim C10 (amended): whenever `forecast_demand` returns (every non-empty
history), the returned `confidence_score` is the two-decimal rounding of
`max(0.1, 1 - min(volatility, 0.5))`; that value is at least 0.5, so the
returned `confidence_tier` is HIGH or MEDIUM and the LOW tier is
unreachable. -/
theorem forecast_confidence_floor (h : List DailyRec) (r : ForecastResult)
    (he : forecast_demand h = some r) :
    r.confidence_score =
      pyRound2 (max (1 / 10 : ℝ) (1 - min (volatility (salesOf h)) (1 / 2))) ∧
    (1 / 2 : ℝ) ≤ r.confidence_score ∧
    r.confidence_tier ≠ Tier.LOW := by
  simp only [forecast_demand] at he
  by_cases hemp : (salesOf h).isEmpty = true
  · rw [if_pos hemp] at he
    exact absurd he (by simp)
  · rw [if_neg hemp] at he
    have hr := Option.some.inj he
    rw [← hr]
    refine ⟨rfl, ?_, ?_⟩
    · exact pyRound2_ge_half (confidenceOf_ge_half (salesOf h))
    · exact tierOf_ne_low (confidenceOf_ge_half (salesOf h))

/-- A three-day history whose sales have mean 6 and sample variance 4, so
the volatility is exactly 1/3 and the confidence formula yields 2/3. -/
def hist3 : List DailyRec := [⟨0, 8⟩, ⟨1, 4⟩, ⟨2, 6⟩]

theorem salesOf_hist3 : salesOf hist3 = [8, 4, 6] := by
  norm_num [salesOf, hist3, List.insertionSort, List.orderedInsert]

theorem svar_hist3 : svar [8, 4, 6] = 4 := by
  norm_num [svar, listMean]

theorem listMean_hist3 : listMean [8, 4, 6] = 6 := by
  norm_num [listMean]

theorem volatility_hist3 : volatility [8, 4, 6] = 1 / 3 := by
  unfold volatility
  rw [svar_hist3, listMean_hist3]
  rw [if_pos (by norm_num)]
  rw [show ((4 : ℚ) : ℝ) = 2 ^ 2 by norm_num, Real.sqrt_sq (by norm_num : (0 : ℝ) ≤ 2)]
  norm_num

theorem confidenceOf_hist3 : confidenceOf [8, 4, 6] = 2 / 3 := by
  unfold confidenceOf
  rw [volatility_hist3]
  rw [min_eq_left (by norm_num : (1 / 3 : ℝ) ≤ 1 / 2)]
  rw [max_eq_right (by norm_num : (1 / 10 : ℝ) ≤ 1 - 1 / 3)]
  norm_num

theorem pyRound2_two_thirds : pyRound2 ((2 : ℝ) / 3) = 67 / 100 := by
  unfold pyRound2
  norm_num [rndHE, Int.fract]

/-- Claim C10 (corrected): on the history `hist3` (volatility exactly 1/3)
the returned `confidence_score` is `0.67`, the two-decimal rounding of the
formula value `2/3` — not `max(0.1, 1 - min(volatility, 0.5))` itself, which
the claim asserts. -/
theorem forecast_confidence_not_formula :
    (forecast_demand hist3).map (fun r => r.confidence_score) =
      some (67 / 100 : ℝ) ∧
    (67 / 100 : ℝ) ≠ max (1 / 10 : ℝ) (1 - min (volatility (salesOf hist3)) (1 / 2)) := by
  constructor
  · simp only [forecast_demand, salesOf_hist3]
    rw [if_neg (by simp)]
    show some (pyRound2 (confidenceOf [8, 4, 6])) = some ((67 : ℝ) / 100)
    rw [confidenceOf_hist3, pyRound2_two_thirds]
  · rw [salesOf_hist3]
    have : max (1 / 10 : ℝ) (1 - min (volatility [8, 4, 6]) (1 / 2)) =
        confidenceOf [8, 4, 6] := rfl
    rw [this, confidenceOf_hist3]
    norm_num

theorem forecast_demand_single_eval :
    forecast_demand [⟨0, 0⟩] =
      some ⟨[1, 1, 1, 1, 1, 1, 1], 0, 1, Tier.HIGH, 0⟩ := by
  have hs : salesOf [(⟨0, 0⟩ : DailyRec)] = [0] := by
    norm_num [salesOf, List.insertionSort, List.orderedInsert]
  have hvol : volatility [(0 : ℚ)] = 0 := by
    unfold volatility
    rw [if_neg (by norm_num)]
  have hconf : confidenceOf [(0 : ℚ)] = 1 := by
    unfold confidenceOf
    rw [hvol]
    norm_num [min_def, max_def]
  simp only [forecast_demand, hs]
  rw [if_neg (by simp)]
  simp only [Option.some.injEq, ForecastResult.mk.injEq]
  refine ⟨?_, ?_, ?_, ?_, ?_⟩
  · norm_num [lastN, listMean, List.range_succ, pyIntQ]
  · norm_num [lastN, listMean, pyRound1, rndHE, Int.fract]
  · rw [hconf]
    norm_num [pyRound2, rndHE, Int.fract]
  · rw [hconf]
    unfold tierOf
    rw [if_pos (by norm_num)]
  · norm_num [lastN, listMean]

/-- Witness for `forecast_confidence_floor` at the single-day history
`[⟨0, 0⟩]`, where the forecast returns confidence 1.0 and tier HIGH. -/
theorem forecast_confidence_floor_witness :
    (1 / 2 : ℝ) ≤
      (⟨[1, 1, 1, 1, 1, 1, 1], 0, 1, Tier.HIGH, 0⟩ : ForecastResult).confidence_score ∧
    (⟨[1, 1, 1, 1, 1, 1, 1], 0, 1, Tier.HIGH, 0⟩ : ForecastResult).confidence_tier ≠
      Tier.LOW := by
  have h := forecast_confidence_floor [⟨0, 0⟩]
    ⟨[1, 1, 1, 1, 1, 1, 1], 0, 1, Tier.HIGH, 0⟩ forecast_demand_single_eval
  exact ⟨h.2.1, h.2.2⟩
